import Mathlib

/-!
Shallow embedding of the test-automation harness core:
the resilient request client (`BaseApiClient` in src/tests/api_tests.py)
and the wait engine (`BasePage` in src/BasePage.py), together with the
suggest-client response extraction helpers.

External collaborators are modelled as explicit parameters:
- the HTTP transport is a function from the resolved URL and the attempt
  index (0-based) to either a response or a thrown exception;
- the UI surface is a function from the poll step (0-based, one step per
  polling tick of a `WebDriverWait`) to the state of the element a locator
  denotes at that step.
Machine time is discretised into poll steps; a wait with budget `timeout`
evaluates its condition at steps 0, 1, ..., timeout (at least once, as
selenium's `WebDriverWait.until` does).
-/

namespace Diploma

/-- Minimal JSON value, the decoded body a transport response carries. -/
inductive Json where
  | null
  | bool (b : Bool)
  | num (n : Int)
  | str (s : String)
  | arr (elems : List Json)
  | obj (fields : List (String × Json))

/-- Model of `requests.Response`, restricted to the fields the code reads:
`status_code`, `text`, and the decoded JSON body (`response.json()`). -/
structure Response where
  status_code : Int
  text : String
  body : Json

/-- Result of one transport attempt (`self.session.request(...)`): either a
response object (whatever its status code) or a raised exception, carried
as its message string. -/
inductive TransportResult where
  | ok (r : Response)
  | exn (e : String)

/-- A transport: given the resolved URL and the 0-based attempt index,
what `session.request` does on that attempt. -/
abbrev Transport := String → Nat → TransportResult

/-- The `AssertionError`s `_request` can raise:
`failedAfter n e` is `raise AssertionError(f"Запрос не выполнен после {retry} попыток: {e}")`
and `couldNotPerform` is the fall-through `raise AssertionError("Не удалось выполнить запрос")`. -/
inductive ReqError where
  | failedAfter (attempts : Nat) (cause : String)
  | couldNotPerform

/-- The `AssertionError` `wait_for_ok` raises, carrying the observed
status code and the response text (body). -/
inductive ApiError where
  | unexpectedStatus (code : Int) (text : String)

/- Config constants from src/tests/api_tests.py. -/
namespace Config

def SUGGEST_API_URL : String := "https://autocomplete.travelpayouts.com/places2"

def FLIGHT_API_URL : String := "https://api.travelpayouts.com/v1/flights/search"

def TOKEN : String := "yourapikeyhere"

def TIMEOUT : Int := 30

def RETRY_COUNT : Int := 3

end Config

/-- `BaseApiClient.__init__` state: `self.base_url`, `self.token`; the
session headers are derived below. -/
structure BaseApiClient where
  base_url : String
  token : Option String

namespace BaseApiClient

/-- The headers installed on the session at construction:
`if token: self.session.headers.update({"Authorization": f"Token {token}"})`.
Python truthiness: `None` and the empty string are falsy. -/
def sessionHeaders (c : BaseApiClient) : List (String × String) :=
  match c.token with
  | some t => if t = "" then [] else [("Authorization", "Token " ++ t)]
  | none => []

/-- Header-list lookup by exact key. -/
def lookupHeader (hs : List (String × String)) (k : String) : Option String :=
  (hs.find? (fun p => p.1 = k)).map (fun p => p.2)

/-- The headers an attempt actually carries: `requests.Session` merges the
session headers with the per-request `headers` argument, the per-request
entry winning on a key collision. -/
def effectiveHeaders (c : BaseApiClient) (extra : Option (List (String × String))) :
    List (String × String) :=
  let ex := extra.getD []
  (c.sessionHeaders.filter (fun p => ¬ ex.any (fun q => q.1 = p.1))) ++ ex

/-- Embeds `full_url = url if url.startswith("http") else f"{self.base_url}{url}"`. -/
def resolveUrl (base_url url : String) : String :=
  if url.startsWith "http" then url else base_url ++ url

/-- The `for attempt in range(retry)` loop of `_request`, with the attempt
index and the remaining iterations (`fuel`) explicit; returns the outcome
together with the number of transport attempts made.  `fuel = 0` is the
loop falling through to `raise AssertionError("Не удалось выполнить запрос")`. -/
def requestLoop (t : Nat → TransportResult) (retry : Nat) :
    Nat → Nat → Except ReqError Response × Nat
  | attempt, 0 => (Except.error ReqError.couldNotPerform, attempt)
  | attempt, fuel + 1 =>
    match t attempt with
    | TransportResult.ok r => (Except.ok r, attempt + 1)
    | TransportResult.exn e =>
      if attempt = retry - 1 then
        (Except.error (ReqError.failedAfter retry e), attempt + 1)
      else
        requestLoop t retry (attempt + 1) fuel

/-- Model of `BaseApiClient._request`: resolves the URL, then runs the retry loop.
`retry` is a Python int, so `range(retry)` is empty when `retry <= 0`
(modelled by `Int.toNat`).  Returns the outcome (response or raised
`AssertionError`) and the number of attempts made. -/
def _request (c : BaseApiClient) (t : Transport) (url : String) (retry : Int) :
    Except ReqError Response × Nat :=
  requestLoop (t (resolveUrl c.base_url url)) retry.toNat 0 retry.toNat

/-- Model of `BaseApiClient.wait_for_ok`: assert `status_code == 200` (raising with
the observed code and text otherwise), then return the decoded JSON body. -/
def wait_for_ok (r : Response) : Except ApiError Json :=
  if r.status_code = 200 then Except.ok r.body
  else Except.error (ApiError.unexpectedStatus r.status_code r.text)

end BaseApiClient

/-- Model of `SuggestApiClient.__init__`: `super().__init__(base_url=Config.SUGGEST_API_URL, token=None)`. -/
def SuggestApiClient : BaseApiClient :=
  { base_url := Config.SUGGEST_API_URL, token := none }

/-- Model of `FlightSearchApiClient.__init__`: `super().__init__(base_url=Config.FLIGHT_API_URL, token=Config.TOKEN)`. -/
def FlightSearchApiClient : BaseApiClient :=
  { base_url := Config.FLIGHT_API_URL, token := some Config.TOKEN }

/-- One item of the `/places2` response array, restricted to the keys
`extract_city_names` reads (`item.get(...)` yields `none` for a missing key). -/
structure Place where
  type : Option String
  name : Option String
  city_name : Option String
deriving DecidableEq

/-- Python `a or b` on two `.get` results (strings or `None`): `a` unless
`a` is falsy (`None` or the empty string). -/
def pyOrStr (a b : Option String) : Option String :=
  match a with
  | some s => if s = "" then b else some s
  | none => b

/-- Model of `set.add`, with the set carried as a duplicate-free list. -/
def insertSet (s : List String) (x : String) : List String :=
  if x ∈ s then s else s ++ [x]

/-- The loop body of `extract_city_names`, folding items into the set. -/
def extractCityLoop : List Place → List String → List String
  | [], acc => acc
  | item :: rest, acc =>
    extractCityLoop rest
      (if item.type = some "city" then
        match pyOrStr item.name item.city_name with
        | some s => if s = "" then acc else insertSet acc s
        | none => acc
      else acc)

/-- Model of `SuggestApiClient.extract_city_names`: collect, over items whose
`type` is `"city"`, the truthy `name or city_name` values into a set,
returned as a duplicate-free list. -/
def extract_city_names (items : List Place) : List String :=
  extractCityLoop items []

/- ===== Wait engine (src/BasePage.py) ===== -/

/-- The one failure a `WebDriverWait` surfaces: `TimeoutException`. -/
inductive WaitErr where
  | timeout
deriving DecidableEq

/-- Polling from step `k` with `fuel` evaluations left: the body of
`WebDriverWait.until` — evaluate the condition, return its value on
success, raise `TimeoutException` when the deadline passes. -/
def waitFrom (f : Nat → Option α) : Nat → Nat → Except WaitErr α
  | _, 0 => Except.error WaitErr.timeout
  | k, fuel + 1 =>
    match f k with
    | some a => Except.ok a
    | none => waitFrom f (k + 1) fuel

/-- Model of `WebDriverWait(driver, timeout).until(cond)`: evaluates `cond` at
steps `0, 1, ..., timeout` (at least once) and returns the first success. -/
def waitPoll (f : Nat → Option α) (timeout : Nat) : Except WaitErr α :=
  waitFrom f 0 (timeout + 1)

/-- The state, at one poll step, of the element a locator denotes. -/
structure ElemState where
  present : Bool
  visible : Bool
  enabled : Bool
  text : String

/-- A UI surface: the element's state at each poll step. -/
abbrev UI := Nat → ElemState

/-- Model of `EC.element_to_be_clickable`: present, visible and enabled. -/
def clickableState (s : ElemState) : Bool :=
  s.present && s.visible && s.enabled

namespace BasePage

/-- Model of `find_element`: `self.wait.until(EC.presence_of_element_located(locator))`;
the returned element is identified by the step at which it was found. -/
def find_element (ui : UI) (timeout : Nat) : Except WaitErr Nat :=
  waitPoll (fun k => if (ui k).present then some k else none) timeout

/-- Model of `find_clickable`: `self.wait.until(EC.element_to_be_clickable(locator))`. -/
def find_clickable (ui : UI) (timeout : Nat) : Except WaitErr Nat :=
  waitPoll (fun k => if clickableState (ui k) then some k else none) timeout

/-- Primitive element interactions an action emits, tagged with the poll
step of the element they act on. -/
inductive Event where
  | clicked (k : Nat)
  | cleared (k : Nat)
  | typed (k : Nat) (text : String)
deriving DecidableEq

/-- Model of `click`: `self.find_clickable(locator).click()`. -/
def click (ui : UI) (timeout : Nat) : Except WaitErr (List Event) :=
  (find_clickable ui timeout).map (fun k => [Event.clicked k])

/-- Model of `send_keys`: `element = self.find_element(locator); element.clear(); element.send_keys(text)`. -/
def send_keys (ui : UI) (timeout : Nat) (text : String) : Except WaitErr (List Event) :=
  (find_element ui timeout).map (fun k => [Event.cleared k, Event.typed k text])

/-- Model of `get_text`: `return self.find_element(locator).text`. -/
def get_text (ui : UI) (timeout : Nat) : Except WaitErr String :=
  (find_element ui timeout).map (fun k => (ui k).text)

/-- Model of `is_element_present`: run a presence wait under `try`, catching
`TimeoutException` into `False`. -/
def is_element_present (ui : UI) (timeout : Nat) : Bool :=
  match waitPoll (fun k => if (ui k).present then some k else none) timeout with
  | Except.ok _ => true
  | Except.error _ => false

/-- A Python value a `wait_for_result` condition may produce. -/
inductive PyVal where
  | none
  | bool (b : Bool)
  | int (n : Int)
  | str (s : String)
  | list (xs : List PyVal)

/-- Python truthiness on such a value. -/
def PyVal.truthy : PyVal → Bool
  | PyVal.none => false
  | PyVal.bool b => b
  | PyVal.int n => n ≠ 0
  | PyVal.str s => s ≠ ""
  | PyVal.list xs => !xs.isEmpty

/-- Model of `wait_for_result`: `WebDriverWait(self.driver, timeout).until(lambda _: condition())`;
the condition is re-evaluated each poll step and the first truthy value
is returned. -/
def wait_for_result (condition : Nat → PyVal) (timeout : Nat) : Except WaitErr PyVal :=
  waitPoll (fun k => if (condition k).truthy then some (condition k) else none) timeout

end BasePage

/- ===== Concrete inputs used to instantiate the theorems below ===== -/

/-- A 200 response with decoded body consisting of the single field a = 1. -/
def respA : Response := { status_code := 200, text := "status ok", body := Json.obj [("a", Json.num 1)] }

/-- A 404 response. -/
def resp404 : Response := { status_code := 404, text := "not found", body := Json.null }

/-- A 400 response, as produced by a transport without raising. -/
def resp400 : Response := { status_code := 400, text := "bad request", body := Json.null }

/-- A token-less client against a fixed base URL. -/
def demoClient : BaseApiClient := { base_url := "https://api.example.test", token := none }

/-- A transport that returns a single 400 response on every attempt. -/
def transport400 : Transport := fun _ _ => TransportResult.ok resp400

/-- A transport that raises on the first attempt and succeeds on the second. -/
def failOnceTransport : Transport := fun _ k =>
  match k with
  | 0 => TransportResult.exn "connection reset"
  | _ + 1 => TransportResult.ok respA

/-- A transport whose send always raises. -/
def alwaysFailTransport : Transport := fun _ _ => TransportResult.exn "connection refused"

/-- A UI surface whose element becomes present, visible and enabled from step 2 on. -/
def demoUi : UI := fun k => { present := decide (2 ≤ k), visible := true, enabled := true, text := "price" }

/-- A UI surface whose element never appears. -/
def emptyUi : UI := fun _ => { present := false, visible := false, enabled := false, text := "" }

/-- A concrete suggest-response item list: two city items (one named twice),
one airport item, and one city item with no usable name. -/
def demoPlaces : List Place :=
  [ { type := some "city", name := some "Sochi", city_name := none },
    { type := some "airport", name := some "Adler", city_name := none },
    { type := some "city", name := none, city_name := some "Moscow" },
    { type := some "city", name := some "Sochi", city_name := none },
    { type := some "city", name := some "", city_name := none } ]

/- ===== Helper lemmas about the polling loop ===== -/

/-- A successful poll found its value at the first step, within range, at
which the condition produced one. -/
theorem waitFrom_ok_spec {α : Type} (f : Nat → Option α) :
    ∀ fuel k a, waitFrom f k fuel = Except.ok a →
      ∃ j, k ≤ j ∧ j < k + fuel ∧ f j = some a ∧ ∀ i, k ≤ i → i < j → f i = none := by
  intro fuel
  induction fuel with
  | zero =>
    intro k a h
    simp [waitFrom] at h
  | succ n ih =>
    intro k a h
    cases hf : f k with
    | some b =>
      simp only [waitFrom, hf, Except.ok.injEq] at h
      subst h
      exact ⟨k, Nat.le_refl k, by omega, hf, fun i h1 h2 => absurd h2 (by omega)⟩
    | none =>
      simp only [waitFrom, hf] at h
      obtain ⟨j, hj1, hj2, hj3, hj4⟩ := ih (k + 1) a h
      refine ⟨j, by omega, by omega, hj3, fun i h1 h2 => ?_⟩
      rcases Nat.eq_or_lt_of_le h1 with he | hl
      · exact he ▸ hf
      · exact hj4 i hl h2

/-- A poll that timed out saw the condition fail at every step in range. -/
theorem waitFrom_error_spec {α : Type} (f : Nat → Option α) :
    ∀ fuel k, waitFrom f k fuel = Except.error WaitErr.timeout →
      ∀ j, k ≤ j → j < k + fuel → f j = none := by
  intro fuel
  induction fuel with
  | zero =>
    intro k _ j h1 h2
    omega
  | succ n ih =>
    intro k h j h1 h2
    cases hf : f k with
    | some b => simp [waitFrom, hf] at h
    | none =>
      simp only [waitFrom, hf] at h
      rcases Nat.eq_or_lt_of_le h1 with he | hl
      · exact he ▸ hf
      · exact ih (k + 1) h j hl (by omega)

/-- A condition that fails at every step in range makes the poll time out. -/
theorem waitFrom_none_error {α : Type} (f : Nat → Option α) :
    ∀ fuel k, (∀ j, k ≤ j → j < k + fuel → f j = none) →
      waitFrom f k fuel = Except.error WaitErr.timeout := by
  intro fuel
  induction fuel with
  | zero => intro k _; rfl
  | succ n ih =>
    intro k h
    have hk : f k = none := h k (Nat.le_refl k) (by omega)
    simp only [waitFrom, hk]
    exact ih (k + 1) (fun j h1 h2 => h j (by omega) (by omega))

/-- Specialisation to boolean readiness conditions: a successful wait
returns the first in-budget step at which the condition held. -/
theorem waitPoll_if_ok (g : Nat → Bool) (timeout k : Nat)
    (h : waitPoll (fun j => if g j then some j else none) timeout = Except.ok k) :
    k ≤ timeout ∧ g k = true ∧ ∀ j, j < k → g j = false := by
  unfold waitPoll at h
  obtain ⟨j, hj1, hj2, hj3, hj4⟩ := waitFrom_ok_spec _ (timeout + 1) 0 k h
  have hgj : g j = true ∧ j = k := by
    cases hg : g j with
    | true => simp [hg] at hj3; exact ⟨rfl, hj3⟩
    | false => simp [hg] at hj3
  obtain ⟨hg, rfl⟩ := hgj
  refine ⟨by omega, hg, fun i hi => ?_⟩
  have h5 := hj4 i (Nat.zero_le i) hi
  cases hgi : g i with
  | true => simp [hgi] at h5
  | false => rfl

/-- Specialisation to boolean readiness conditions: a condition that fails
for the whole budget makes the wait raise a timeout. -/
theorem waitPoll_if_none (g : Nat → Bool) (timeout : Nat)
    (h : ∀ j, j ≤ timeout → g j = false) :
    waitPoll (fun j => if g j then some j else none) timeout = Except.error WaitErr.timeout := by
  unfold waitPoll
  apply waitFrom_none_error
  intro j h1 h2
  simp [h j (by omega)]

/-- Specialisation to boolean readiness conditions: a condition that holds
at some in-budget step makes the wait succeed. -/
theorem waitPoll_if_exists_ok (g : Nat → Bool) (timeout : Nat)
    (h : ∃ k, k ≤ timeout ∧ g k = true) :
    ∃ k, waitPoll (fun j => if g j then some j else none) timeout = Except.ok k := by
  cases hw : waitPoll (fun j => if g j then some j else none) timeout with
  | ok k => exact ⟨k, rfl⟩
  | error e =>
    obtain ⟨k, hk1, hk2⟩ := h
    cases e
    unfold waitPoll at hw
    have := waitFrom_error_spec _ (timeout + 1) 0 hw k (Nat.zero_le k) (by omega)
    simp [hk2] at this

/-- A transport that raises on every attempt drives the retry loop to make
every remaining attempt and stop with the final failure. -/
theorem requestLoop_all_exn (t : Nat → TransportResult) (es : Nat → String) (rn : Nat)
    (ht : ∀ k, t k = TransportResult.exn (es k)) :
    ∀ fuel attempt, attempt + fuel = rn → attempt < rn →
      BaseApiClient.requestLoop t rn attempt fuel
        = (Except.error (ReqError.failedAfter rn (es (rn - 1))), rn) := by
  intro fuel
  induction fuel with
  | zero => intro attempt h1 h2; omega
  | succ n ih =>
    intro attempt h1 h2
    simp only [BaseApiClient.requestLoop, ht attempt]
    by_cases hl : attempt = rn - 1
    · rw [if_pos hl, hl]
      have h3 : rn - 1 + 1 = rn := by omega
      rw [h3]
    · rw [if_neg hl]
      exact ih (attempt + 1) (by omega) (by omega)

/- ===== Helper lemmas about the city-name set ===== -/

/-- Membership in a set after `add`. -/
theorem mem_insertSet (s : List String) (x y : String) :
    y ∈ insertSet s x ↔ y ∈ s ∨ y = x := by
  unfold insertSet
  by_cases h : x ∈ s
  · rw [if_pos h]
    constructor
    · exact Or.inl
    · rintro (hy | rfl)
      · exact hy
      · exact h
  · rw [if_neg h]
    simp [List.mem_append]

/-- An `add` keeps the set duplicate-free. -/
theorem nodup_insertSet (s : List String) (x : String) (h : s.Nodup) :
    (insertSet s x).Nodup := by
  unfold insertSet
  by_cases hx : x ∈ s
  · rwa [if_pos hx]
  · rw [if_neg hx]
    simp [List.nodup_append, h, hx]

/-- Membership after one iteration of the extraction loop body. -/
theorem mem_extractStep (item : Place) (acc : List String) (x : String) :
    (x ∈ (if item.type = some "city" then
            match pyOrStr item.name item.city_name with
            | some s => if s = "" then acc else insertSet acc s
            | none => acc
          else acc))
      ↔ x ∈ acc ∨ (item.type = some "city"
          ∧ pyOrStr item.name item.city_name = some x ∧ x ≠ "") := by
  split
  next hty =>
    split
    next s heq =>
      by_cases hs : s = ""
      · subst hs
        rw [if_pos rfl]
        constructor
        · exact Or.inl
        · rintro (hy | ⟨_, hpx, hne⟩)
          · exact hy
          · rw [heq] at hpx
            exact absurd (Option.some.inj hpx).symm hne
      · rw [if_neg hs, mem_insertSet]
        constructor
        · rintro (hy | rfl)
          · exact Or.inl hy
          · exact Or.inr ⟨hty, heq, hs⟩
        · rintro (hy | ⟨_, hpx, hne⟩)
          · exact Or.inl hy
          · rw [heq] at hpx
            exact Or.inr (Option.some.inj hpx).symm
    next heq =>
      simp [heq]
  next hty =>
    simp [hty]

/-- Membership in the extraction loop result: an element is either carried
in from the accumulator or contributed by a qualifying city item. -/
theorem extractCityLoop_mem :
    ∀ (items : List Place) (acc : List String) (x : String),
      x ∈ extractCityLoop items acc ↔
        x ∈ acc ∨ ∃ item, item ∈ items ∧ item.type = some "city"
          ∧ pyOrStr item.name item.city_name = some x ∧ x ≠ "" := by
  intro items
  induction items with
  | nil =>
    intro acc x
    simp [extractCityLoop]
  | cons item rest ih =>
    intro acc x
    simp only [extractCityLoop]
    rw [ih, mem_extractStep]
    constructor
    · rintro ((hacc | hitem) | ⟨i, hi, hp⟩)
      · exact Or.inl hacc
      · exact Or.inr ⟨item, List.mem_cons_self item rest, hitem⟩
      · exact Or.inr ⟨i, List.mem_cons_of_mem item hi, hp⟩
    · rintro (hacc | ⟨i, hi, hp⟩)
      · exact Or.inl (Or.inl hacc)
      · rcases List.mem_cons.mp hi with rfl | hrest
        · exact Or.inl (Or.inr hp)
        · exact Or.inr ⟨i, hrest, hp⟩

/-- The extraction loop keeps its accumulator duplicate-free. -/
theorem extractCityLoop_nodup :
    ∀ (items : List Place) (acc : List String), acc.Nodup → (extractCityLoop items acc).Nodup := by
  intro items
  induction items with
  | nil => intro acc h; simpa [extractCityLoop] using h
  | cons item rest ih =>
    intro acc h
    simp only [extractCityLoop]
    apply ih
    split
    · split
      · split
        · exact h
        · exact nodup_insertSet _ _ h
      · exact h
    · exact h

/-- Evaluation of the absolute-URL test on the concrete URL used below
(the recursive comparison loop of `String.substrEq` is unfolded step by
step, since it does not reduce definitionally). -/
theorem startsWith_http_abs : "http://x".startsWith "http" = true := by
  show String.substrEq.loop "http://x" "http" 0 0 ⟨4⟩ = true
  rw [String.substrEq.loop.eq_def]
  show String.substrEq.loop "http://x" "http" ⟨1⟩ ⟨1⟩ ⟨4⟩ = true
  rw [String.substrEq.loop.eq_def]
  show String.substrEq.loop "http://x" "http" ⟨2⟩ ⟨2⟩ ⟨4⟩ = true
  rw [String.substrEq.loop.eq_def]
  show String.substrEq.loop "http://x" "http" ⟨3⟩ ⟨3⟩ ⟨4⟩ = true
  rw [String.substrEq.loop.eq_def]
  show String.substrEq.loop "http://x" "http" ⟨4⟩ ⟨4⟩ ⟨4⟩ = true
  rw [String.substrEq.loop.eq_def]
  rfl

/- ===== Claim theorems ===== -/

/-- C1: `_request` never consumes retry budget on an HTTP error status:
whenever the first transport attempt yields a response without raising —
whatever its status code, 4xx/5xx included — that response is returned
as-is after exactly one attempt, for any retry budget of at least 1. -/
theorem C1_http_response_no_retry (c : BaseApiClient) (t : Transport) (url : String)
    (retry : Int) (r : Response) (h1 : 1 ≤ retry)
    (ht : t (BaseApiClient.resolveUrl c.base_url url) 0 = TransportResult.ok r) :
    BaseApiClient._request c t url retry = (Except.ok r, 1) := by
  obtain ⟨n, hn⟩ : ∃ n, retry.toNat = n + 1 := ⟨retry.toNat - 1, by omega⟩
  unfold BaseApiClient._request
  rw [hn]
  simp [BaseApiClient.requestLoop, ht]

/-- C1 witness: with a retry budget of 3 against a transport returning a
single 400 response, exactly 1 attempt is made and the 400 response is
returned as-is. -/
theorem C1_http_response_no_retry_witness :
    BaseApiClient._request demoClient transport400 "/search" 3 = (Except.ok resp400, 1)
      ∧ resp400.status_code = 400 :=
  ⟨C1_http_response_no_retry demoClient transport400 "/search" 3 resp400 (by decide) rfl, rfl⟩

/-- C2 counterexample: the claim quantifies both halves over every
retryBudget of at least 1, but with retryBudget 1 a transport that raises
on the first attempt and would succeed on the second never reaches the
second attempt: `_request` raises the final `AssertionError` after exactly
1 attempt instead of returning the successful response after 2. -/
theorem C2_retry_exhaustion_counterexample :
    BaseApiClient._request demoClient failOnceTransport "/search" 1
        = (Except.error (ReqError.failedAfter 1 "connection reset"), 1)
      ∧ BaseApiClient._request demoClient failOnceTransport "/search" 1
        ≠ (Except.ok respA, 2) := by
  refine ⟨rfl, fun hc => ?_⟩
  have h2 : (1 : Nat) = 2 := congrArg Prod.snd hc
  omega

/-- C2 (amended): for every retryBudget of at least 1, a transport whose
send always raises is retried exactly retryBudget times and the final
failure surfaces as the `AssertionError` carrying the attempt count and
the last underlying cause; and for every retryBudget of at least 2, a
transport that raises once and then succeeds yields the successful
response after exactly 2 attempts. -/
theorem C2_retry_exhaustion_amended (c : BaseApiClient) (t : Transport) (url : String)
    (retry : Int) (es : Nat → String) (r : Response) :
    ((1 ≤ retry → (∀ k, t (BaseApiClient.resolveUrl c.base_url url) k = TransportResult.exn (es k)) →
      BaseApiClient._request c t url retry
        = (Except.error (ReqError.failedAfter retry.toNat (es (retry.toNat - 1))), retry.toNat))
    ∧ (2 ≤ retry →
      t (BaseApiClient.resolveUrl c.base_url url) 0 = TransportResult.exn (es 0) →
      t (BaseApiClient.resolveUrl c.base_url url) 1 = TransportResult.ok r →
      BaseApiClient._request c t url retry = (Except.ok r, 2))) := by
  constructor
  · intro h1 ht
    unfold BaseApiClient._request
    exact requestLoop_all_exn _ es retry.toNat ht retry.toNat 0 (by omega) (by omega)
  · intro h2 h0 hok
    obtain ⟨m, hm⟩ : ∃ m, retry.toNat = m + 1 + 1 := ⟨retry.toNat - 2, by omega⟩
    unfold BaseApiClient._request
    rw [hm]
    simp only [BaseApiClient.requestLoop, h0]
    rw [if_neg (by omega)]
    simp [BaseApiClient.requestLoop, hok]

/-- C2 witness: with retry budget 3, an always-raising transport makes 3
attempts and surfaces the final failure; a raise-once transport returns
the successful response after exactly 2 attempts. -/
theorem C2_retry_exhaustion_amended_witness :
    BaseApiClient._request demoClient alwaysFailTransport "/search" 3
        = (Except.error (ReqError.failedAfter 3 "connection refused"), 3)
      ∧ BaseApiClient._request demoClient failOnceTransport "/search" 3 = (Except.ok respA, 2) :=
  ⟨(C2_retry_exhaustion_amended demoClient alwaysFailTransport "/search" 3
      (fun _ => "connection refused") respA).1 (by decide) (fun _ => rfl),
   (C2_retry_exhaustion_amended demoClient failOnceTransport "/search" 3
      (fun _ => "connection reset") respA).2 (by decide) rfl rfl⟩

/-- C3: `wait_for_ok` returns the decoded JSON body exactly when the
status code is 200, and otherwise raises the `AssertionError` carrying the
observed status code and the response body. -/
theorem C3_wait_for_ok_spec (r : Response) :
    (r.status_code = 200 → BaseApiClient.wait_for_ok r = Except.ok r.body)
    ∧ (r.status_code ≠ 200 →
        BaseApiClient.wait_for_ok r
          = Except.error (ApiError.unexpectedStatus r.status_code r.text))
    ∧ (∀ b, BaseApiClient.wait_for_ok r = Except.ok b ↔ r.status_code = 200 ∧ b = r.body) := by
  refine ⟨fun h => ?_, fun h => ?_, fun b => ?_⟩
  · simp [BaseApiClient.wait_for_ok, h]
  · simp [BaseApiClient.wait_for_ok, h]
  · by_cases h : r.status_code = 200 <;> simp [BaseApiClient.wait_for_ok, h, eq_comm]

/-- C3 witness: a 200 response with body consisting of the field a = 1
decodes to that body; a 404 response raises an error containing 404. -/
theorem C3_wait_for_ok_spec_witness :
    BaseApiClient.wait_for_ok respA = Except.ok (Json.obj [("a", Json.num 1)])
      ∧ BaseApiClient.wait_for_ok resp404
        = Except.error (ApiError.unexpectedStatus 404 "not found") :=
  ⟨(C3_wait_for_ok_spec respA).1 rfl, (C3_wait_for_ok_spec resp404).2.1 (by decide)⟩

/-- C8: `_request` sends against the URL resolved from the configured base
URL: the path is used unchanged when absolute (it starts with "http") and
is appended to the base URL otherwise. -/
theorem C8_url_resolution (c : BaseApiClient) (t : Transport) (url : String) (retry : Int) :
    BaseApiClient._request c t url retry
        = BaseApiClient.requestLoop (t (BaseApiClient.resolveUrl c.base_url url))
            retry.toNat 0 retry.toNat
      ∧ (url.startsWith "http" = true → BaseApiClient.resolveUrl c.base_url url = url)
      ∧ (url.startsWith "http" = false →
          BaseApiClient.resolveUrl c.base_url url = c.base_url ++ url) := by
  refine ⟨rfl, fun h => ?_, fun h => ?_⟩
  · simp [BaseApiClient.resolveUrl, h]
  · simp [BaseApiClient.resolveUrl, h]

/-- C8 witness: an absolute URL is used unchanged; a relative path is
appended to the base URL. -/
theorem C8_url_resolution_witness :
    BaseApiClient.resolveUrl "https://b" "http://x" = "http://x"
      ∧ BaseApiClient.resolveUrl "https://b" "/p" = "https://b" ++ "/p" :=
  ⟨(C8_url_resolution { base_url := "https://b", token := none } transport400 "http://x" 3).2.1
      startsWith_http_abs,
   (C8_url_resolution { base_url := "https://b", token := none } transport400 "/p" 3).2.2
      (by decide)⟩

/-- C9: a retry budget of 0 or less makes the loop body unreachable, so
`_request` raises the fall-through `AssertionError` after 0 attempts. -/
theorem C9_nonpositive_retry (c : BaseApiClient) (t : Transport) (url : String)
    (retry : Int) (h : retry ≤ 0) :
    BaseApiClient._request c t url retry = (Except.error ReqError.couldNotPerform, 0) := by
  have h0 : retry.toNat = 0 := by omega
  unfold BaseApiClient._request
  rw [h0]
  rfl

/-- C9 witness: a negative retry budget raises the fall-through error with
zero attempts made. -/
theorem C9_nonpositive_retry_witness :
    BaseApiClient._request demoClient transport400 "/search" (-2)
      = (Except.error ReqError.couldNotPerform, 0) :=
  C9_nonpositive_retry demoClient transport400 "/search" (-2) (by decide)

/-- C4: `is_element_present` never raises: when the element becomes
present within the budget it returns true, when it never does it returns
false, and any failure of the underlying wait is converted into false
rather than propagated. -/
theorem C4_is_element_present_never_raises (ui : UI) (timeout : Nat) :
    ((∃ k, k ≤ timeout ∧ (ui k).present = true) →
        BasePage.is_element_present ui timeout = true)
    ∧ ((∀ k, k ≤ timeout → (ui k).present = false) →
        BasePage.is_element_present ui timeout = false)
    ∧ (∀ e, waitPoll (fun k => if (ui k).present then some k else none) timeout
          = Except.error e →
        BasePage.is_element_present ui timeout = false) := by
  refine ⟨?_, ?_, ?_⟩
  · intro h
    obtain ⟨j, hj⟩ := waitPoll_if_exists_ok (fun k => (ui k).present) timeout h
    unfold BasePage.is_element_present
    rw [hj]
  · intro h
    unfold BasePage.is_element_present
    rw [waitPoll_if_none (fun k => (ui k).present) timeout h]
  · intro e he
    unfold BasePage.is_element_present
    rw [he]

/-- C4 witness: an element present from step 2 on is reported true within
a budget of 5; an element that never appears is reported false, with no
error escaping in either case. -/
theorem C4_is_element_present_never_raises_witness :
    BasePage.is_element_present demoUi 5 = true
      ∧ BasePage.is_element_present emptyUi 5 = false :=
  ⟨(C4_is_element_present_never_raises demoUi 5).1 ⟨2, by decide, rfl⟩,
   (C4_is_element_present_never_raises emptyUi 5).2.1 (fun _ _ => rfl)⟩

/-- C5: `wait_for_result` returns the first truthy value the repeatedly
evaluated condition produces, and raises a timeout if the deadline elapses
with no truthy value observed. -/
theorem C5_wait_for_result_spec (condition : Nat → BasePage.PyVal) (timeout : Nat) :
    (∀ v, BasePage.wait_for_result condition timeout = Except.ok v →
        ∃ k, k ≤ timeout ∧ condition k = v ∧ v.truthy = true
          ∧ ∀ j, j < k → (condition j).truthy = false)
    ∧ ((∀ k, k ≤ timeout → (condition k).truthy = false) →
        BasePage.wait_for_result condition timeout = Except.error WaitErr.timeout) := by
  constructor
  · intro v h
    unfold BasePage.wait_for_result waitPoll at h
    obtain ⟨j, hj1, hj2, hj3, hj4⟩ := waitFrom_ok_spec _ (timeout + 1) 0 v h
    have hcj : (condition j).truthy = true ∧ condition j = v := by
      cases hg : (condition j).truthy with
      | true => simp [hg] at hj3; exact ⟨rfl, hj3⟩
      | false => simp [hg] at hj3
    obtain ⟨hg, hv⟩ := hcj
    refine ⟨j, by omega, hv, hv ▸ hg, fun i hi => ?_⟩
    have h5 := hj4 i (Nat.zero_le i) hi
    cases hgi : (condition i).truthy with
    | true => simp [hgi] at h5
    | false => rfl
  · intro h
    unfold BasePage.wait_for_result waitPoll
    apply waitFrom_none_error
    intro j h1 h2
    simp [h j (by omega)]

/-- C5 witness: a condition that always yields a falsy value times out; a
condition producing a truthy string at step 2 yields that string, with the
earlier evaluations falsy. -/
theorem C5_wait_for_result_spec_witness :
    BasePage.wait_for_result (fun _ => BasePage.PyVal.none) 3
        = Except.error WaitErr.timeout
      ∧ (∃ k, k ≤ 3
          ∧ (fun j => if j < 2 then BasePage.PyVal.bool false else BasePage.PyVal.str "done") k
              = BasePage.PyVal.str "done"
          ∧ (BasePage.PyVal.str "done").truthy = true
          ∧ ∀ j, j < k →
              ((fun j => if j < 2 then BasePage.PyVal.bool false else BasePage.PyVal.str "done") j).truthy
                = false) :=
  ⟨(C5_wait_for_result_spec (fun _ => BasePage.PyVal.none) 3).2 (fun _ _ => rfl),
   (C5_wait_for_result_spec
      (fun j => if j < 2 then BasePage.PyVal.bool false else BasePage.PyVal.str "done") 3).1
      (BasePage.PyVal.str "done") rfl⟩

/-- C6: a client constructed with a non-empty token attaches an
Authorization header derived from that token to every request it issues
(whenever the caller's per-request headers do not themselves set one),
for the client's whole lifetime; a client constructed without a token
never adds an Authorization header.  Instantiated by the flight-search
client (token configured) and the suggest client (no token). -/
theorem C6_authorization_header :
    (∀ (base t : String) (extra : List (String × String)),
        t ≠ "" →
        BaseApiClient.lookupHeader extra "Authorization" = none →
        BaseApiClient.lookupHeader
          (BaseApiClient.effectiveHeaders { base_url := base, token := some t } (some extra))
          "Authorization" = some ("Token " ++ t))
    ∧ (∀ (base : String) (extra : List (String × String)),
        BaseApiClient.lookupHeader
          (BaseApiClient.effectiveHeaders { base_url := base, token := none } (some extra))
          "Authorization" = BaseApiClient.lookupHeader extra "Authorization")
    ∧ BaseApiClient.lookupHeader (BaseApiClient.effectiveHeaders FlightSearchApiClient none)
        "Authorization" = some ("Token " ++ Config.TOKEN)
    ∧ BaseApiClient.lookupHeader (BaseApiClient.effectiveHeaders SuggestApiClient none)
        "Authorization" = none := by
  refine ⟨?_, ?_, ?_, ?_⟩
  · intro base t extra ht hextra
    have hfind : extra.find? (fun p => p.1 = "Authorization") = none := by
      unfold BaseApiClient.lookupHeader at hextra
      cases hf : extra.find? (fun p => p.1 = "Authorization") with
      | none => rfl
      | some p => rw [hf] at hextra; simp at hextra
    have hkeys : ∀ q ∈ extra, ¬ (q.1 = "Authorization") := by
      intro q hq
      have := List.find?_eq_none.mp hfind q hq
      simpa using this
    have hany : (extra.any (fun q => q.1 = "Authorization")) = false := by
      rw [List.any_eq_false]
      intro x hx
      simpa using hkeys x hx
    simp only [BaseApiClient.effectiveHeaders, BaseApiClient.sessionHeaders, Option.getD]
    rw [if_neg ht]
    simp [BaseApiClient.lookupHeader, List.filter, hany, List.find?]
  · intro base extra
    simp [BaseApiClient.effectiveHeaders, BaseApiClient.sessionHeaders]
  · rfl
  · rfl

/-- C6 witness: with a non-empty token and unrelated per-request headers
the Authorization header carries the token; with no token the client adds
no Authorization header. -/
theorem C6_authorization_header_witness :
    BaseApiClient.lookupHeader
        (BaseApiClient.effectiveHeaders { base_url := "https://b", token := some "tok" }
          (some [("X-Trace", "1")])) "Authorization" = some ("Token " ++ "tok")
      ∧ BaseApiClient.lookupHeader
          (BaseApiClient.effectiveHeaders { base_url := "https://b", token := none }
            (some [("X-Trace", "1")])) "Authorization"
          = BaseApiClient.lookupHeader [("X-Trace", "1")] "Authorization" :=
  ⟨C6_authorization_header.1 "https://b" "tok" [("X-Trace", "1")] (by decide) rfl,
   C6_authorization_header.2.1 "https://b" [("X-Trace", "1")]⟩

/-- C7: every interactive action waits for its readiness condition and
only then acts: a click lands on the element at the first step at which it
was clickable (present, visible and enabled); typing and reading act on
the element at the first step at which it was present. -/
theorem C7_wait_then_act (ui : UI) (timeout : Nat) (text : String) :
    (∀ evs k, BasePage.click ui timeout = Except.ok evs →
        BasePage.Event.clicked k ∈ evs →
        k ≤ timeout ∧ clickableState (ui k) = true
          ∧ ∀ j, j < k → clickableState (ui j) = false)
    ∧ (∀ evs k, BasePage.send_keys ui timeout text = Except.ok evs →
        (BasePage.Event.cleared k ∈ evs ∨ BasePage.Event.typed k text ∈ evs) →
        k ≤ timeout ∧ (ui k).present = true ∧ ∀ j, j < k → (ui j).present = false)
    ∧ (∀ s, BasePage.get_text ui timeout = Except.ok s →
        ∃ k, k ≤ timeout ∧ (ui k).present = true ∧ s = (ui k).text
          ∧ ∀ j, j < k → (ui j).present = false) := by
  refine ⟨?_, ?_, ?_⟩
  · intro evs k hok hmem
    unfold BasePage.click at hok
    cases hfc : BasePage.find_clickable ui timeout with
    | error e => rw [hfc] at hok; simp [Except.map] at hok
    | ok k0 =>
      rw [hfc] at hok
      simp only [Except.map, Except.ok.injEq] at hok
      subst hok
      simp only [List.mem_singleton, BasePage.Event.clicked.injEq] at hmem
      subst hmem
      exact waitPoll_if_ok (fun j => clickableState (ui j)) timeout k hfc
  · intro evs k hok hmem
    unfold BasePage.send_keys at hok
    cases hfe : BasePage.find_element ui timeout with
    | error e => rw [hfe] at hok; simp [Except.map] at hok
    | ok k0 =>
      rw [hfe] at hok
      simp only [Except.map, Except.ok.injEq] at hok
      subst hok
      have hk : k = k0 := by
        rcases hmem with hm | hm <;> simp [List.mem_cons] at hm <;> tauto
      subst hk
      exact waitPoll_if_ok (fun j => (ui j).present) timeout k hfe
  · intro s hok
    unfold BasePage.get_text at hok
    cases hfe : BasePage.find_element ui timeout with
    | error e => rw [hfe] at hok; simp [Except.map] at hok
    | ok k0 =>
      rw [hfe] at hok
      simp only [Except.map, Except.ok.injEq] at hok
      obtain ⟨h1, h2, h3⟩ := waitPoll_if_ok (fun j => (ui j).present) timeout k0 hfe
      exact ⟨k0, h1, h2, hok.symm, h3⟩

/-- C7 witness: against a surface whose element is ready from step 2 on,
the click lands at step 2, where the element is clickable. -/
theorem C7_wait_then_act_witness :
    2 ≤ 5 ∧ clickableState (demoUi 2) = true :=
  ⟨((C7_wait_then_act demoUi 5 "term").1 [BasePage.Event.clicked 2] 2 rfl (by decide)).1,
   ((C7_wait_then_act demoUi 5 "term").1 [BasePage.Event.clicked 2] 2 rfl (by decide)).2.1⟩

/-- C10: `extract_city_names` returns a duplicate-free list whose
elements are exactly the truthy name-or-city_name values of the items of
type city; items of other types, and city items with no truthy name or
city_name, contribute nothing. -/
theorem C10_extract_city_names_spec (items : List Place) :
    (extract_city_names items).Nodup
      ∧ ∀ x, x ∈ extract_city_names items ↔
          ∃ item, item ∈ items ∧ item.type = some "city"
            ∧ pyOrStr item.name item.city_name = some x ∧ x ≠ "" := by
  constructor
  · exact extractCityLoop_nodup items [] List.nodup_nil
  · intro x
    unfold extract_city_names
    rw [extractCityLoop_mem]
    simp

/-- C10 witness: on the concrete suggest-response item list, the result is
duplicate-free and contains the city name Sochi. -/
theorem C10_extract_city_names_spec_witness :
    (extract_city_names demoPlaces).Nodup ∧ "Sochi" ∈ extract_city_names demoPlaces :=
  ⟨(C10_extract_city_names_spec demoPlaces).1,
   ((C10_extract_city_names_spec demoPlaces).2 "Sochi").mpr
     ⟨{ type := some "city", name := some "Sochi", city_name := none },
      by decide, by decide, by decide, by decide⟩⟩

end Diploma
